import Mathlib

/-!
Verification development for the `profiler` module
(`src/profiler/models/profiler_profile.py`).

The Python source is shallowly embedded below: module-level constants become
Lean constants, the `ProfilerProfile` model's class attributes become the
`CState` structure, database rows become plain structures held in an `Env`
record, and each method becomes a pure Lean function threading the `Env`.
External collaborators (`cProfile` serialization, `pstats` rendering,
`pgbadger`, the PostgreSQL server answering `SHOW`, the server clock, the
HTTP session id, and the worker configuration) are bundled in an `Ext`
record of parameters, since their behaviour is outside the repository.
Raised `UserError` exceptions are modelled with `Except String`.
-/

/-! ### Association-list helpers (Python dict / session parameters) -/

/-- First-match lookup in a key-value list, mirroring dict access /
`SHOW param`. -/
def lookupKV {α : Type} : List (String × α) → String → Option α
  | [], _ => none
  | (k, v) :: rest, p => if k = p then some v else lookupKV rest p

/-- Key membership in a key-value list. -/
def hasKeyKV {α : Type} : List (String × α) → String → Bool
  | [], _ => false
  | (k, _) :: rest, p => if k = p then true else hasKeyKV rest p

/-- Replace the value at every occurrence of a key. -/
def replaceKV {α : Type} : List (String × α) → String → α → List (String × α)
  | [], _, _ => []
  | (k, v) :: rest, p, w =>
    if k = p then (k, w) :: replaceKV rest p w else (k, v) :: replaceKV rest p w

/-- Store a binding: replace in place when the key exists, append otherwise.
This models the effect of a session-level `SET param TO value` on the set of
parameters of one connection. -/
def setKV {α : Type} (l : List (String × α)) (p : String) (w : α) :
    List (String × α) :=
  if hasKeyKV l p then replaceKV l p w else l ++ [(p, w)]

/-! ### A small backtracking regular-expression engine

`LINE_STATS_RE` in the source is a Python `re` pattern.  The engine below
implements exactly the constructs that pattern uses — character classes
`\d`, `\s`, `.`, literals, greedy `*`, `+`, `?`, alternation (left branch
first) and named groups — with Python's leftmost/greedy backtracking order,
so that `rmatch` below has the semantics of `re.match` (anchored at the
start of the string, not at the end). -/

/-- One-character pattern elements. -/
inductive RElem where
  | lit (c : Char)
  | digit
  | space
  | dot
  deriving DecidableEq, Repr

/-- Whether a pattern element matches a character. Python classes `\d` and
`\s` restricted to ASCII input, `.` is any character except a newline. -/
def RElem.matchesChar : RElem → Char → Bool
  | RElem.lit c, d => c = d
  | RElem.digit, d => d.isDigit
  | RElem.space, d =>
    d = ' ' || d = '\t' || d = '\n' || d = '\r' || d = '\x0b' || d = '\x0c'
  | RElem.dot, d => d ≠ '\n'

/-- Regular expressions over the constructs used by `LINE_STATS_RE`. -/
inductive Regex where
  | eps
  | elem (e : RElem)
  | seq (a b : Regex)
  | alt (a b : Regex)
  | star (a : Regex)
  | opt (a : Regex)
  | group (n : String) (a : Regex)
  deriving DecidableEq, Repr

/-- Greedy `+`, encoded as in `a a*`. -/
def Regex.rplus (a : Regex) : Regex := Regex.seq a (Regex.star a)

/-- Named-capture environment: group name to matched characters. -/
abbrev Caps := List (String × List Char)

/-- Record a group capture (later matches of a group overwrite earlier
ones, as in Python). -/
def setCap (caps : Caps) (n : String) (v : List Char) : Caps :=
  setKV caps n v

/-- One fuel level of the backtracking matcher, in continuation style:
structural recursion over the regex; `star` is delegated to the handler
for the next lower fuel level.  `alt` tries its left branch first and
`opt` the present branch first, giving Python's leftmost-greedy
backtracking order. -/
def mrunInner (starHandle : Regex → List Char → Caps →
    (List Char → Caps → Option Caps) → Option Caps) :
    Regex → List Char → Caps →
    (List Char → Caps → Option Caps) → Option Caps
  | Regex.eps, s, caps, k => k s caps
  | Regex.elem e, s, caps, k =>
    match s with
    | [] => none
    | c :: rest => if e.matchesChar c then k rest caps else none
  | Regex.seq a b, s, caps, k =>
    mrunInner starHandle a s caps
      (fun s2 caps2 => mrunInner starHandle b s2 caps2 k)
  | Regex.alt a b, s, caps, k =>
    match mrunInner starHandle a s caps k with
    | some r => some r
    | none => mrunInner starHandle b s caps k
  | Regex.star a, s, caps, k => starHandle a s caps k
  | Regex.opt a, s, caps, k =>
    match mrunInner starHandle a s caps k with
    | some r => some r
    | none => k s caps
  | Regex.group n a, s, caps, k =>
    mrunInner starHandle a s caps
      (fun s2 caps2 => k s2 (setCap caps2 n (s.take (s.length - s2.length))))

/-- Backtracking matcher: greedy `star` tries the longer match first.
`fuel` bounds the number of `star` unfoldings; every `star` body used
below consumes at least one character, so `length + 1` fuel is enough and
the bound never changes the semantics. -/
def mrun : Nat → Regex → List Char → Caps →
    (List Char → Caps → Option Caps) → Option Caps
  | 0 => mrunInner (fun _ s caps k => k s caps)
  | fuel + 1 => mrunInner (fun a s caps k =>
      match mrun fuel a s caps
          (fun s2 caps2 => mrun fuel (Regex.star a) s2 caps2 k) with
      | some r => some r
      | none => k s caps)

/-- Python `LINE_STATS_RE.match(s)`: anchored at the start of the string,
any remainder may be left unmatched. -/
def rmatch (r : Regex) (s : List Char) : Option Caps :=
  mrun (s.length + 1) r s [] (fun _ caps => some caps)

/-- Text captured by a named group (the empty string when absent). -/
def getCap (caps : Caps) (n : String) : String :=
  ((lookupKV caps n).getD []).asString

/-! ### The report-line grammar (`LINE_STATS_RE`) and its surrounding code -/

/-- Digit run `\d+`. -/
def rdigits : Regex := Regex.rplus (Regex.elem RElem.digit)

/-- Whitespace run `\s+`. -/
def rspaces : Regex := Regex.rplus (Regex.elem RElem.space)

/-- Number field `\d+\.?\d+` (named group). -/
def rfloat (n : String) : Regex :=
  Regex.group n
    (Regex.seq rdigits (Regex.seq (Regex.opt (Regex.elem (RElem.lit '.'))) rdigits))

/-- Right-nested sequence of a list of regexes. -/
def rseq : List Regex → Regex
  | [] => Regex.eps
  | [r] => r
  | r :: rest => Regex.seq r (rseq rest)

/-- Embedding of the source pattern

`(?P<ncalls>\d+/?\d+|\d+)\s+(?P<tottime>\d+\.?\d+)\s+(?P<tt_percall>\d+\.?\d+)\s+`
`(?P<cumtime>\d+\.?\d+)\s+(?P<ct_percall>\d+\.?\d+)\s+(?P<file>.*):(?P<lineno>\d+)`
`\((?P<method>.*)\)`

built from `PY_STATS_FIELDS` in the source. -/
def LINE_STATS_RE : Regex :=
  rseq
    [ Regex.group "ncalls"
        (Regex.alt
          (rseq [rdigits, Regex.opt (Regex.elem (RElem.lit '/')), rdigits])
          rdigits),
      rspaces, rfloat "tottime",
      rspaces, rfloat "tt_percall",
      rspaces, rfloat "cumtime",
      rspaces, rfloat "ct_percall",
      rspaces, Regex.group "file" (Regex.star (Regex.elem RElem.dot)),
      Regex.elem (RElem.lit ':'),
      Regex.group "lineno" rdigits,
      Regex.elem (RElem.lit '('),
      Regex.group "method" (Regex.star (Regex.elem RElem.dot)),
      Regex.elem (RElem.lit ')') ]

/-- Captured fields of one matched report line (the named groups of
`LINE_STATS_RE`, in `PY_STATS_FIELDS` order). -/
structure StatData where
  ncalls : String
  tottime : String
  tt_percall : String
  cumtime : String
  ct_percall : String
  file : String
  lineno : String
  method : String
  deriving DecidableEq, Repr

/-- Characters stripped from both ends of a report line by
`py_stat_line.strip("\r\n ")`. -/
def stripSet : List Char := ['\r', '\n', ' ']

/-- Python `s.strip("\r\n ")`. -/
def stripLine (s : String) : String :=
  (((s.toList.dropWhile (fun c => stripSet.contains c)).reverse.dropWhile
      (fun c => stripSet.contains c)).reverse).asString

/-- Python `str.split(sep)` for a one-character separator (always returns
at least one piece; splitting the empty string gives `[""]`). -/
def splitOnChar (sep : Char) : List Char → List (List Char)
  | [] => [[]]
  | c :: rest =>
    let r := splitOnChar sep rest
    if c = sep then [] :: r
    else
      match r with
      | [] => [[c]]
      | h :: t => (c :: h) :: t

/-- Python `s.splitlines()` as used on the `pstats` report.  Modelled as a
split on the line feed; the subsequent `strip("\r\n ")` removes any
carriage return, so the difference with universal newlines is invisible to
the parse. -/
def splitlines (s : String) : List String :=
  (splitOnChar '\n' s.toList).map List.asString

/-- One iteration of the report-parsing loop in `dump_stats`: strip the
line, skip it when empty (`if py_stat_line`), otherwise match it against
`LINE_STATS_RE`; a failed match yields nothing (`continue`). -/
def parseStatLine (raw : String) : Option StatData :=
  let line := stripLine raw
  if line = "" then none
  else
    match rmatch LINE_STATS_RE line.toList with
    | none => none
    | some caps =>
      some { ncalls := getCap caps "ncalls",
             tottime := getCap caps "tottime",
             tt_percall := getCap caps "tt_percall",
             cumtime := getCap caps "cumtime",
             ct_percall := getCap caps "ct_percall",
             file := getCap caps "file",
             lineno := getCap caps "lineno",
             method := getCap caps "method" }

/-! ### Data model

Rows of the Odoo models become plain structures; only the fields the
profiling core reads or writes are modelled.  UI glue fields
(`description`, the three `pg_stats_*_html` report snippets,
`pg_log_path`, `pg_remote`, computed attachment counters and display
names) are written only by the out-of-scope reporting/onchange glue and
are omitted. -/

/-- Values of the `python_method` selection field
(`full` = "All activity", `request` = "Per HTTP request"). -/
inductive PythonMethod where
  | full
  | request
  deriving DecidableEq, Repr

/-- Values of the `state` selection field. -/
inductive ProfileState where
  | enabled
  | disabled
  deriving DecidableEq, Repr

/-- The shared `cProfile.Profile()` object: whether it is currently
collecting, and its accumulated sample buffer (abstracted as a list of
recorded events). -/
structure Sampler where
  is_on : Bool
  buffer : List Nat
  deriving DecidableEq, Repr

/-- Python `profile.enable()`. -/
def Sampler.enable (s : Sampler) : Sampler := { s with is_on := true }

/-- Python `profile.disable()`. -/
def Sampler.disable (s : Sampler) : Sampler := { s with is_on := false }

/-- Python `profile.clear()`: the accumulated buffer is wiped. -/
def Sampler.clearBuf (s : Sampler) : Sampler := { s with buffer := [] }

/-- Class attributes of `ProfilerProfile`, i.e. process-wide state:

`profile = Profile()`, `enabled = None`, `pglogs_enabled = None`,
`activate_deactivate_pglogs = None`, `psql_params_original = {}`.
The three Python `None`/`True`/`False` flags are `Option Bool` with
`none` for `None`. -/
structure CState where
  profile : Sampler
  enabled : Option Bool
  pglogs_enabled : Option Bool
  activate_deactivate_pglogs : Option Bool
  psql_params_original : List (String × String)
  deriving DecidableEq, Repr

/-- Python truthiness of an `Option Bool` flag (`None` and `False` are
falsy). -/
def truthy : Option Bool → Bool
  | some b => b
  | none => false

/-- One pooled PostgreSQL connection, reduced to its session-level
parameter settings (the only state the reconfigurator touches). -/
structure PGConn where
  params : List (String × String)
  deriving DecidableEq, Repr

/-- Effect of `SET param TO value` on one connection. -/
def PGConn.set (c : PGConn) (p v : String) : PGConn :=
  { params := setKV c.params p v }

/-- Current session value of a parameter on one connection. -/
def PGConn.lookup (c : PGConn) (p : String) : Option String :=
  lookupKV c.params p

/-- One `ir.attachment` row.  `datas` holds the base64-encoded payload,
exactly as the source passes `base64.b64encode(datas)`. -/
structure Attachment where
  name : String
  res_id : Nat
  res_model : String
  datas : List Nat
  store_fname : String
  description : String
  index_content : Option String
  deriving DecidableEq, Repr

/-- One `profiler.profile.python.line` row.  The captured report fields
are kept as the strings handed to `create()`; the ORM's string-to-float
conversion of the numeric columns is not re-modelled. -/
structure ProfilerProfilePythonLine where
  profile_id : Nat
  cprof_tottime : String
  cprof_ncalls : String
  cprof_nrcalls : String
  cprof_ttpercall : String
  cprof_cumtime : String
  cprof_ctpercall : String
  cprof_fname : String
  deriving DecidableEq, Repr

/-- One `profiler.profile` row (the session record). -/
structure ProfilerProfile where
  id : Nat
  name : String
  enable_python : Bool
  session : Option String
  python_method : PythonMethod
  enable_postgresql : Bool
  use_py_index : Bool
  date_started : Option String
  date_finished : Option String
  state : ProfileState
  deriving DecidableEq, Repr

/-- The world the methods mutate: the session rows, the class attributes,
the pooled connections (`sql_db._Pool._connections`), the attachment and
python-line tables, the HTTP session marker
(`session.oca_profiler`, `none` for absent or `False`), and the
`PGOPTIONS` environment variable. -/
structure Env where
  records : List ProfilerProfile
  cls : CState
  connections : List PGConn
  attachments : List Attachment
  py_lines : List ProfilerProfilePythonLine
  oca_profiler : Option Nat
  pgoptions_env : String
  deriving DecidableEq, Repr

/-- External collaborators, fixed for the duration of one call:
worker configuration (`tools.config.get("workers")`, `0` when unset),
the server clock (`now_utc`), the HTTP session id, `cProfile`
serialization of a buffer followed by the file read-back, the `pstats`
textual rendering of a buffer, `strftime` on a stored date, the
`pgbadger` output (`none` when the binary or the log file is missing),
the server's verdict on each `SET param TO value` per connection index
(`some cause` when the command is rejected), and the server's answer to
`SHOW param`. -/
structure External where
  workers : Nat
  now : String
  sid : String
  serialize : List Nat → List Nat
  render : List Nat → String
  fmtDate : Option String → String
  pgbadger : Option (List Nat)
  reject : Nat → String → String → Option String
  showParam : String → String

/-- Module constant `CPROFILE_EMPTY_CHARS = b"{0"` — the two marshal bytes
a `cProfile` dump of an empty buffer produces. -/
def CPROFILE_EMPTY_CHARS : List Nat := [123, 48]

/-- Module constant `PGOPTIONS`, in source (insertion) order. -/
def PGOPTIONS : List (String × String) :=
  [ ("log_min_duration_statement", "0"),
    ("client_min_messages", "notice"),
    ("log_min_messages", "warning"),
    ("log_min_error_statement", "error"),
    ("log_duration", "off"),
    ("log_error_verbosity", "verbose"),
    ("log_lock_waits", "on"),
    ("log_statement", "none"),
    ("log_temp_files", "0") ]

/-- Module constant `PGOPTIONS_ENV`. -/
def PGOPTIONS_ENV : String :=
  String.intercalate " "
    (PGOPTIONS.map (fun kv => "-c " ++ kv.1 ++ "=" ++ kv.2))

/-- Message of the `UserError` raised by `enable()` under a multi-worker
configuration. -/
def workersUserError : String :=
  "To profile all activity, start the odoo server using the parameter \x27--workers=0\x27"

/-- Message of the `UserError` raised by `_reset_connection` when a `SET`
is rejected; `cause` is `str(oe)`, interpolated by the `%s` in the middle
of the format string. -/
def pgUserError (cause : String) : String :=
  "It\x27s not possible change parameter.\n" ++ cause ++
    "\nPlease, disable postgresql or re-enable it in order to read the instructions"

/-! ### Generic helpers used by the operations -/

/-- Standard base64 of a byte list (`base64.b64encode`). -/
def b64alphabet : List Nat :=
  ("ABCDEFGHIJKLMNOPQRSTUVWXYZabcdefghijklmnopqrstuvwxyz0123456789+/".toList.map
    Char.toNat)

/-- The base64 digit for a 6-bit value. -/
def b64digit (n : Nat) : Nat := (b64alphabet.get? n).getD 65

/-- Encode bytes in base64 with `=` (byte 61) padding. -/
def base64Encode : List Nat → List Nat
  | [] => []
  | [a] => [b64digit (a / 4), b64digit (a % 4 * 16), 61, 61]
  | [a, b] => [b64digit (a / 4), b64digit (a % 4 * 16 + b / 16),
               b64digit (b % 16 * 4), 61]
  | a :: b :: c :: rest =>
    [b64digit (a / 4), b64digit (a % 4 * 16 + b / 16),
     b64digit (b % 16 * 4 + c / 64), b64digit (c % 64)] ++ base64Encode rest

/-- Persist a written session row: the row with the same `id` is replaced
(an ORM `write` on `self`). -/
def updateRecord (env : Env) (p : ProfilerProfile) : Env :=
  { env with records := env.records.map (fun q => if q.id = p.id then p else q) }

/-- Unwrap a successful result (`none` when a `UserError` was raised). -/
def okEnv : Except String Env → Option Env
  | Except.ok e => some e
  | Except.error _ => none

/-- Whether a call completed without raising. -/
def exceptIsOk : Except String Env → Bool
  | Except.ok _ => true
  | Except.error _ => false

/-! ### The methods of `ProfilerProfile` -/

/-- Method `_get_attachment_name`:
`"%s_%d_%s_to_%s%s" % (prefix, self.id, started, finished, suffix)` with
`started`/`finished` the `strftime`-formatted stored dates (external
formatting, `External.fmtDate`). -/
def ProfilerProfile.get_attachment_name (ext : External) (self : ProfilerProfile)
    (pre suf : String) : String :=
  pre ++ "_" ++ toString self.id ++ "_" ++ ext.fmtDate self.date_started ++
    "_to_" ++ ext.fmtDate self.date_finished ++ suf

/-- Row built by the parsing loop of `dump_stats` for one matched line:
`data["rcalls"], data["calls"] = ("%(ncalls)s/%(ncalls)s" % data).split("/")[:2]`
followed by the `create()` call (note the space in
`"%(file)s:%(lineno)s (%(method)s)"`). -/
def mkPyLine (pid : Nat) (d : StatData) : ProfilerProfilePythonLine :=
  let parts :=
    (splitOnChar '/' (d.ncalls ++ "/" ++ d.ncalls).toList).map List.asString
  { profile_id := pid,
    cprof_tottime := d.tottime,
    cprof_ncalls := (parts.get? 1).getD "",
    cprof_nrcalls := (parts.get? 0).getD "",
    cprof_ttpercall := d.tt_percall,
    cprof_cumtime := d.cumtime,
    cprof_ctpercall := d.ct_percall,
    cprof_fname := d.file ++ ":" ++ d.lineno ++ " (" ++ d.method ++ ")" }

/-- Indexing step of `dump_stats` under `use_py_index`: all prior
`profiler.profile.python.line` rows of this session are unlinked, then one
row is created per report line matching `LINE_STATS_RE`; empty and
non-matching lines are skipped. -/
def indexLines (pid : Nat) (report : String)
    (lines : List ProfilerProfilePythonLine) : List ProfilerProfilePythonLine :=
  (lines.filter (fun l => l.profile_id ≠ pid)) ++
    ((splitlines report).filterMap
      (fun raw => (parseStatLine raw).map (mkPyLine pid)))

/-- Inner loop of `_reset_connection` for one connection (one short-lived
cursor): issue `SET param TO value` for each pair in order; on the first
rejected command the pending transaction is rolled back — the connection
keeps its entry state — and the `psycopg2` error text is the raised cause. -/
def setConnParams (reject : String → String → Option String) :
    PGConn → List (String × String) → Except String PGConn
  | c, [] => Except.ok c
  | c, (p, v) :: rest =>
    match reject p v with
    | some cause => Except.error cause
    | none => setConnParams reject (c.set p v) rest

/-- Outer loop of `_reset_connection` over the pooled connections,
threading the class state (`activate_deactivate_pglogs` is assigned after
each connection's cursor closes).  The raised `UserError` aborts the loop:
connections already processed keep their new values, the failing one is
rolled back, the rest are never touched.  The optional third component is
the raised error. -/
def resetConnectionGo (reject : Nat → String → String → Option String)
    (en : Bool) (ps : List (String × String)) :
    Nat → CState → List PGConn → CState × List PGConn × Option String
  | _, cls, [] => (cls, [], none)
  | i, cls, c :: rest =>
    match setConnParams (reject i) c ps with
    | Except.error cause => (cls, c :: rest, some (pgUserError cause))
    | Except.ok c2 =>
      let cls2 := { cls with activate_deactivate_pglogs := some en }
      let r := resetConnectionGo reject en ps (i + 1) cls2 rest
      (r.1, c2 :: r.2.1, r.2.2)

/-- Method `_reset_connection(enable)`: the parameter set is `PGOPTIONS`
when enabling and the cached `psql_params_original` when disabling. -/
def ProfilerProfile.reset_connection (ext : External) (en : Bool) (cls : CState)
    (conns : List PGConn) : CState × List PGConn × Option String :=
  resetConnectionGo ext.reject en
    (if en then PGOPTIONS else cls.psql_params_original) 0 cls conns

/-- Method `_reset_postgresql`: a no-op unless `enable_postgresql` is set
and the logs are not already configured externally
(`ProfilerProfile.pglogs_enabled`); otherwise set the `PGOPTIONS`
environment variable and reconfigure every pooled connection, enabling
when `self.state == "enabled"` and restoring otherwise.  In the source the
environment variable is written before the connection loop; when the loop
raises, that write and the partial connection updates survive the
propagating exception, a state which the `Except.error` result (carrying
no environment, like the raised `UserError` seen by the caller) does not
track. -/
def ProfilerProfile.reset_postgresql (ext : External) (self : ProfilerProfile)
    (env : Env) : Except String Env :=
  if self.enable_postgresql = false then Except.ok env
  else if truthy env.cls.pglogs_enabled then Except.ok env
  else
    match ProfilerProfile.reset_connection ext
        (decide (self.state = ProfileState.enabled)) env.cls env.connections with
    | (cls2, conns2, none) =>
      Except.ok { env with
        pgoptions_env :=
          if self.state = ProfileState.enabled then PGOPTIONS_ENV else "",
        cls := cls2, connections := conns2 }
    | (_, _, some e) => Except.error e

/-- Static method `get_psql_params(cr, params)`: probe the server for the
current value of each parameter (`SHOW param`).  The keys of `PGOPTIONS`
are pairwise distinct, so the Python iteration over `set(params)` builds
the same dict regardless of its order. -/
def get_psql_params (ext : External) (params : List String) :
    List (String × String) :=
  params.map (fun p => (p, ext.showParam p))

/-- Method `set_pgoptions_enabled` (run once at `_setup_complete`):
decide whether logging is already configured outside the tool and cache
the server's original parameter values for later restoration.  When the
`PGOPTIONS` environment variable is set the method returns early — and the
originals are then never cached. -/
def ProfilerProfile.set_pgoptions_enabled (ext : External) (env : Env) : Env :=
  let cls1 := { env.cls with pglogs_enabled := some true }
  if env.pgoptions_env ≠ "" then { env with cls := cls1 }
  else
    let pgparams_required : List (String × String) :=
      [("log_min_duration_statement", "0")]
    let cls2 :=
      if pgparams_required.any
          (fun kv => kv.2.toLower ≠ (ext.showParam kv.1).toLower) then
        { cls1 with pglogs_enabled := some false }
      else cls1
    let cls3 := { cls2 with
      psql_params_original := get_psql_params ext (PGOPTIONS.map Prod.fst) }
    { env with cls := cls3 }

/-- Method `enable()`: reject `full`-mode Python profiling under a
multi-worker configuration before any write (the raised error leaves every
record, flag and marker untouched); otherwise flip the process-wide flag
and write the row (`full`), or stash the session marker and write the row
(`request`).  Only the `full` branch triggers `_reset_postgresql`. -/
def ProfilerProfile.enable (ext : External) (self : ProfilerProfile)
    (env : Env) : Except String Env :=
  if ext.workers ≠ 0 ∧ self.enable_python = true ∧
      self.python_method = PythonMethod.full then
    Except.error workersUserError
  else if self.enable_python = true ∧ self.python_method = PythonMethod.full then
    let env2 := { env with cls := { env.cls with enabled := some true } }
    let self2 := { self with date_started := some ext.now,
                             state := ProfileState.enabled }
    ProfilerProfile.reset_postgresql ext self2 (updateRecord env2 self2)
  else if self.enable_python = true ∧
      self.python_method = PythonMethod.request then
    let env2 := { env with oca_profiler := some self.id }
    let self2 := { self with date_started := some ext.now,
                             state := ProfileState.enabled,
                             session := some ext.sid }
    Except.ok (updateRecord env2 self2)
  else Except.ok env

/-- Method `dump_postgresql_logs`: best-effort invocation of `pgbadger`
over the session's log file.  `External.pgbadger` is `none` when the
binary or the log file is unavailable (the method records a diagnostic
description, out of the modelled state, and returns), and the output bytes
otherwise; an empty output is also skipped.  The scraped HTML report
fields are outside the modelled state. -/
def ProfilerProfile.dump_postgresql_logs (ext : External)
    (self : ProfilerProfile) (env : Env) : Env :=
  match ext.pgbadger with
  | none => env
  | some datas =>
    if datas = [] then env
    else
      let fname := ProfilerProfile.get_attachment_name ext self "pg_stats" ".html"
      { env with attachments := env.attachments ++
          [{ name := fname, res_id := self.id, res_model := "profiler.profile",
             datas := base64Encode datas, store_fname := fname,
             description := "pgbadger html output", index_content := none }] }

/-- Method `dump_stats()` (`full` mode only): serialize the shared
sampler's buffer and read the bytes back (`External.serialize`); when the
bytes are empty or equal `CPROFILE_EMPTY_CHARS` nothing is stored and
`None` is returned; otherwise one attachment holding the (base64-encoded)
bytes is created on the session, the python-line index is rebuilt when
`use_py_index` is set (the `pstats` rendering of the buffer is
`External.render`; `attachment.index_content = py_stats` is assigned
then), and the best-effort `pgbadger` step runs. -/
def ProfilerProfile.dump_stats (ext : External) (self : ProfilerProfile)
    (env : Env) : Option Attachment × Env :=
  let datas := ext.serialize env.cls.profile.buffer
  if datas ≠ [] ∧ datas ≠ CPROFILE_EMPTY_CHARS then
    let fname := ProfilerProfile.get_attachment_name ext self "py_stats" ".cprofile"
    let py_stats := ext.render env.cls.profile.buffer
    let att : Attachment :=
      { name := fname, res_id := self.id, res_model := "profiler.profile",
        datas := base64Encode datas, store_fname := fname,
        description := "cProfile dump stats",
        index_content := if self.use_py_index = true then some py_stats else none }
    let env2 := { env with attachments := env.attachments ++ [att] }
    let env3 :=
      if self.use_py_index = true then
        { env2 with py_lines := indexLines self.id py_stats env2.py_lines }
      else env2
    (some att, ProfilerProfile.dump_postgresql_logs ext self env3)
  else (none, env)

/-- Method `clear(reset_date=True)`: optionally restart the start
timestamp, then wipe the shared sampler's accumulated buffer
(`ProfilerProfile.profile.clear()`). -/
def ProfilerProfile.clear (ext : External) (self : ProfilerProfile) (env : Env)
    (reset_date : Bool) : Env :=
  let env2 :=
    if reset_date then updateRecord env { self with date_started := some ext.now }
    else env
  { env2 with cls := { env2.cls with profile := env2.cls.profile.clearBuf } }

/-- Method `disable()`: clear the flag (`full`) or the session marker
(`request`), set the row to `disabled` with the end timestamp, dump the
shared buffer (`full` only), then — in every mode — `clear(reset_date=False)`
and `_reset_postgresql`. -/
def ProfilerProfile.disable (ext : External) (self : ProfilerProfile)
    (env : Env) : Except String Env :=
  let env1 :=
    if self.enable_python = true ∧ self.python_method = PythonMethod.full then
      { env with cls := { env.cls with enabled := some false } }
    else if self.enable_python = true ∧
        self.python_method = PythonMethod.request then
      { env with oca_profiler := none }
    else env
  let self2 := { self with state := ProfileState.disabled,
                           date_finished := some ext.now }
  let env2 := updateRecord env1 self2
  let env3 :=
    if self2.enable_python = true ∧ self2.python_method = PythonMethod.full then
      (ProfilerProfile.dump_stats ext self2 env2).2
    else env2
  let env4 := ProfilerProfile.clear ext self2 env3 false
  ProfilerProfile.reset_postgresql ext self2 env4

/-- How one wrapped unit of work exits: normally or with an exception
propagating out of the `yield`. -/
inductive Outcome where
  | normal
  | except
  deriving DecidableEq, Repr

/-- The `profiling()` context manager, observed at the granularity of the
process-wide class state.  The wrapped unit of work is an arbitrary
function on that state which also chooses its exit path.  When the shared
flag is truthy on entry the shared sampler is enabled, the work runs, and
the `finally` block disables the sampler only if the flag is still truthy
at exit.  The per-request branch (session marker, no shared flag) wraps
the work in a fresh private sampler and best-effort persistence, none of
which touches the class state; the final branch is a plain pass-through. -/
def ProfilerProfile.profiling (work : CState → CState × Outcome)
    (marker : Option Nat) (st : CState) : CState × Outcome :=
  if truthy st.enabled then
    let r := work { st with profile := st.profile.enable }
    (if truthy r.1.enabled then { r.1 with profile := r.1.profile.disable }
     else r.1, r.2)
  else
    match marker with
    | some _ => work st
    | none => work st

/-- Left fold of `SET` commands over a parameter list, the per-connection
effect of one fully successful pass of `_reset_connection`. -/
def applyParams (ps : List (String × String)) (c : PGConn) : PGConn :=
  ps.foldl (fun c kv => c.set kv.1 kv.2) c

/-! ### Concrete fixtures shared by witnesses and counterexamples -/

/-- Baseline external world: single worker, identity serialization, no
`pgbadger`, no rejected `SET` commands. -/
def extBase : External :=
  { workers := 0, now := "2021-01-01 00:00:00", sid := "session1",
    serialize := fun b => b, render := fun _ => "",
    fmtDate := fun _ => "20210101_000000", pgbadger := none,
    reject := fun _ _ _ => none, showParam := fun _ => "" }

/-- Baseline class state: fresh process, sampler off, empty buffer. -/
def clsBase : CState :=
  { profile := { is_on := false, buffer := [] }, enabled := none,
    pglogs_enabled := none, activate_deactivate_pglogs := none,
    psql_params_original := [] }

/-- Baseline `full`-mode session row. -/
def profBase : ProfilerProfile :=
  { id := 1, name := "profile", enable_python := true, session := none,
    python_method := PythonMethod.full, enable_postgresql := false,
    use_py_index := false, date_started := none, date_finished := none,
    state := ProfileState.disabled }

/-- Baseline environment holding the baseline row. -/
def envBase : Env :=
  { records := [profBase], cls := clsBase, connections := [],
    attachments := [], py_lines := [], oca_profiler := none,
    pgoptions_env := "" }

/-- Environment in which a `full`-mode session (id 2) is already enabled
and the process-wide flag is `True`. -/
def envFlagOn : Env :=
  { envBase with
    records := [profBase, { profBase with id := 2, state := ProfileState.enabled }],
    cls := { clsBase with enabled := some true } }

/-- The claim's report line. -/
def lineC7 : String :=
  "10/10  0.020  0.0020  0.050  0.0050  mymodule.py:42(myfunc)"

/-- A wrapped unit of work that clears the process-wide flag while it
runs, as the request serving a user's `disable()` action does. -/
def workClearsFlag : CState → CState × Outcome :=
  fun st => ({ st with enabled := some false }, Outcome.normal)

/-- Entry state for the counterexample: flag set, sampler not yet
collecting. -/
def stFlagOn : CState := { clsBase with enabled := some true }


/-- Cached original server values for C5/C6: same keys as `PGOPTIONS`,
deliberately different values. -/
def origsC5 : List (String × String) :=
  [ ("log_min_duration_statement", "-1"),
    ("client_min_messages", "error"),
    ("log_min_messages", "info"),
    ("log_min_error_statement", "warning"),
    ("log_duration", "on"),
    ("log_error_verbosity", "default"),
    ("log_lock_waits", "off"),
    ("log_statement", "all"),
    ("log_temp_files", "1024") ]

/-- Class state holding the cached originals. -/
def clsC5 : CState := { clsBase with psql_params_original := origsC5 }

/-- Two pooled connections whose session parameters match the cached
originals. -/
def connsC5 : List PGConn := [{ params := origsC5 }, { params := origsC5 }]


/-- Prefix of `PGOPTIONS` before the failing parameter in the C6 witness. -/
def preC6 : List (String × String) := [("log_min_duration_statement", "0")]

/-- Suffix of `PGOPTIONS` after the failing parameter in the C6 witness. -/
def postC6 : List (String × String) :=
  [ ("log_min_messages", "warning"),
    ("log_min_error_statement", "error"),
    ("log_duration", "off"),
    ("log_error_verbosity", "verbose"),
    ("log_lock_waits", "on"),
    ("log_statement", "none"),
    ("log_temp_files", "0") ]

/-- A pooled connection carrying the original parameter values. -/
def connW : PGConn := { params := origsC5 }

/-- A server that rejects `SET client_min_messages` on the second pooled
connection only. -/
def rejectC6 : Nat → String → String → Option String :=
  fun i p _ =>
    if i = 1 ∧ p = "client_min_messages" then some "insufficient privilege"
    else none

/-- External world for the C6 witness. -/
def extC6 : External := { extBase with reject := rejectC6 }


/-- A per-request session row (id 1). -/
def pC9 : ProfilerProfile := { profBase with python_method := PythonMethod.request }

/-- A concurrently enabled `full`-mode session row (id 2). -/
def qC9 : ProfilerProfile :=
  { profBase with id := 2, state := ProfileState.enabled }

/-- Environment with the `full` session enabled: flag `True`, shared
sampler collecting with a non-empty accumulated buffer. -/
def envC9 : Env :=
  { envBase with
    records := [pC9, qC9],
    cls := { clsBase with enabled := some true,
                          profile := { is_on := true, buffer := [1, 2] } } }

/-- The per-request row as `enable()` writes it. -/
def pC9on : ProfilerProfile :=
  { pC9 with date_started := some extBase.now, state := ProfileState.enabled,
             session := some extBase.sid }

/-- The environment after an `enable()`/`disable()` cycle of the
per-request session (`none` if either call raised). -/
def cycleC9 : Option Env :=
  (okEnv (ProfilerProfile.enable extBase pC9 envC9)).bind
    (fun e1 => okEnv (ProfilerProfile.disable extBase pC9on e1))


/-- External world whose serialized sampler buffer is the non-empty,
non-sentinel byte string `[1]`. -/
def extC2 : External := { extBase with serialize := fun _ => [1] }

/-- External world for the C8 witness: non-empty dump bytes and a
two-line `pstats` report — a header line and one well-formed line. -/
def extC8 : External :=
  { extBase with
    serialize := fun _ => [1],
    render := fun _ =>
      "Ordered by: cumulative time\n10/10  0.020  0.0020  0.050  0.0050  mymodule.py:42(myfunc)" }

/-- A `full`-mode session with indexing requested. -/
def pC8 : ProfilerProfile := { profBase with use_py_index := true }

/-! ### C3 — multi-worker guard in `enable()` -/

/-- C3: with a multi-worker configuration, requesting `full`-mode Python
profiling makes `enable()` raise the single-worker `UserError`.  The check
is the first statement of the method, so the error is returned without any
new environment: the session row, timestamps, the process flag and the
context marker of the caller's environment are untouched. -/
theorem enable_multiworker_full_raises (ext : External) (env : Env)
    (p : ProfilerProfile) (hw : ext.workers ≠ 0) (hpy : p.enable_python = true)
    (hm : p.python_method = PythonMethod.full) :
    ProfilerProfile.enable ext p env = Except.error workersUserError := by
  unfold ProfilerProfile.enable
  rw [if_pos ⟨hw, hpy, hm⟩]

/-- Witness for C3 at a two-worker configuration. -/
theorem enable_multiworker_full_raises_witness :
    ProfilerProfile.enable { extBase with workers := 2 } profBase envBase =
      Except.error workersUserError :=
  enable_multiworker_full_raises { extBase with workers := 2 } envBase profBase
    (by decide) rfl rfl

/-! ### C1 — no exclusivity check on the process-wide flag -/

/-- Counterexample to C1: the flag is already `True`, yet `enable()` on a
second `full`-mode session completes without any user error — `enable()`
contains no exclusivity check at all. -/
theorem enable_second_full_no_error_cex :
    envFlagOn.cls.enabled = some true ∧
      exceptIsOk (ProfilerProfile.enable extBase profBase envFlagOn) = true := by
  constructor
  · rfl
  · decide

/-- C1 as amended: calling `enable()` on a `full`-mode session while the
process-wide flag is already `True` (single worker, no postgresql
logging) surfaces no error; it succeeds, leaves the flag `True` (writing
`True` over `True`), and leaves every other session's row — in particular
the already-enabled one — untouched. -/
theorem enable_full_no_exclusivity_check (ext : External) (env : Env)
    (p : ProfilerProfile) (hw : ext.workers = 0) (hpy : p.enable_python = true)
    (hm : p.python_method = PythonMethod.full) (hpg : p.enable_postgresql = false)
    (hflag : env.cls.enabled = some true) :
    ∃ env', ProfilerProfile.enable ext p env = Except.ok env' ∧
      env'.cls.enabled = some true ∧
      ∀ q, q ∈ env.records → q.id ≠ p.id → q ∈ env'.records := by
  have hcond : ¬(ext.workers ≠ 0 ∧ p.enable_python = true ∧
      p.python_method = PythonMethod.full) := by
    intro h
    exact h.1 hw
  refine ⟨updateRecord { env with cls := { env.cls with enabled := some true } }
      { p with date_started := some ext.now, state := ProfileState.enabled },
    ?_, ?_, ?_⟩
  · unfold ProfilerProfile.enable
    rw [if_neg hcond, if_pos ⟨hpy, hm⟩]
    unfold ProfilerProfile.reset_postgresql
    rw [if_pos hpg]
  · rfl
  · intro q hq hne
    simp only [updateRecord, List.mem_map]
    exact ⟨q, hq, by rw [if_neg hne]⟩

/-- Witness for the amended C1 on the flag-on environment. -/
theorem enable_full_no_exclusivity_check_witness :
    ∃ env', ProfilerProfile.enable extBase profBase envFlagOn = Except.ok env' ∧
      env'.cls.enabled = some true ∧
      ∀ q, q ∈ envFlagOn.records → q.id ≠ profBase.id → q ∈ env'.records :=
  enable_full_no_exclusivity_check extBase envFlagOn profBase rfl rfl rfl rfl rfl

/-! ### C7 — the round-trip report line -/

/-- Counterexample to C7: the function-identity string is stored through
the format `"%(file)s:%(lineno)s (%(method)s)"`, which puts a space
between the line number and the parenthesized method — the stored value is
`"mymodule.py:42 (myfunc)"`, not `"mymodule.py:42(myfunc)"`. -/
theorem stat_line_fname_cex :
    (parseStatLine lineC7).map (fun d => (mkPyLine 1 d).cprof_fname) =
        some "mymodule.py:42 (myfunc)" ∧
      "mymodule.py:42 (myfunc)" ≠ "mymodule.py:42(myfunc)" := by
  constructor
  · decide
  · decide

/-- C7 as amended: the line parses (for any session id) to calls `10`,
recursive calls `10`, total time `0.020`, cumulative time `0.050`,
per-call times `0.0020` and `0.0050`, and the stored function identity
`"mymodule.py:42 (myfunc)"` (the source format inserts a space before the
parenthesis). -/
theorem stat_line_parse_roundtrip (pid : Nat) :
    (parseStatLine lineC7).map (mkPyLine pid) =
      some { profile_id := pid, cprof_tottime := "0.020", cprof_ncalls := "10",
             cprof_nrcalls := "10", cprof_ttpercall := "0.0020",
             cprof_cumtime := "0.050", cprof_ctpercall := "0.0050",
             cprof_fname := "mymodule.py:42 (myfunc)" } := by
  have h : parseStatLine lineC7 =
      some { ncalls := "10/10", tottime := "0.020", tt_percall := "0.0020",
             cumtime := "0.050", ct_percall := "0.0050", file := "mymodule.py",
             lineno := "42", method := "myfunc" } := by decide
  rw [h]
  rfl

/-! ### C4 — the sampling scope and its conditional `finally` -/

/-- Counterexample to C4: the `finally` block re-reads the shared flag
and only disables the sampler when the flag is *still* truthy.  For a
unit of work that clears the flag (a `disable()` request), the scope
exits normally yet leaves the shared sampler enabled. -/
theorem profiling_flag_cleared_not_disabled_cex :
    truthy stFlagOn.enabled = true ∧
      (ProfilerProfile.profiling workClearsFlag none stFlagOn).2 =
        Outcome.normal ∧
      (ProfilerProfile.profiling workClearsFlag none stFlagOn).1.profile.is_on =
        true := by
  refine ⟨rfl, rfl, ?_⟩
  decide

/-- C4 as amended: when the process-wide flag is truthy on entry, the
shared sampler is enabled before the wrapped work runs, the work's exit
path (normal or exception) propagates unchanged, and the sampler is
disabled after the work on every exit path *provided the flag is still
truthy when the work exits*; a unit of work that clears the flag leaves
the sampler as the work left it. -/
theorem profiling_scope_sampler_discipline (work : CState → CState × Outcome)
    (marker : Option Nat) (st : CState) (hflag : truthy st.enabled = true) :
    (ProfilerProfile.profiling work marker st).2 =
        (work { st with profile := st.profile.enable }).2 ∧
      (truthy (work { st with profile := st.profile.enable }).1.enabled = true →
        (ProfilerProfile.profiling work marker st).1.profile.is_on = false) ∧
      (truthy (work { st with profile := st.profile.enable }).1.enabled = false →
        (ProfilerProfile.profiling work marker st).1 =
          (work { st with profile := st.profile.enable }).1) := by
  unfold ProfilerProfile.profiling
  rw [if_pos hflag]
  refine ⟨rfl, ?_, ?_⟩
  · intro h
    simp only [h, if_true]
    rfl
  · intro h
    simp [h]

/-- Witness for the amended C4: a unit of work that raises while leaving
the flag set; the sampler is collecting during the work and off after the
exceptional exit. -/
theorem profiling_scope_sampler_discipline_witness :
    (ProfilerProfile.profiling (fun st => (st, Outcome.except)) none stFlagOn).2 =
        ((fun (st : CState) => (st, Outcome.except))
          { stFlagOn with profile := stFlagOn.profile.enable }).2 ∧
      (truthy ((fun (st : CState) => (st, Outcome.except))
          { stFlagOn with profile := stFlagOn.profile.enable }).1.enabled = true →
        (ProfilerProfile.profiling (fun st => (st, Outcome.except)) none
            stFlagOn).1.profile.is_on = false) ∧
      (truthy ((fun (st : CState) => (st, Outcome.except))
          { stFlagOn with profile := stFlagOn.profile.enable }).1.enabled = false →
        (ProfilerProfile.profiling (fun st => (st, Outcome.except)) none
            stFlagOn).1 =
          ((fun (st : CState) => (st, Outcome.except))
            { stFlagOn with profile := stFlagOn.profile.enable }).1) :=
  profiling_scope_sampler_discipline (fun st => (st, Outcome.except)) none
    stFlagOn rfl

/-! ### Lemmas on session-parameter maps -/

/-- Looking a key up after all its occurrences were replaced. -/
theorem lookupKV_replaceKV_self {α : Type} (l : List (String × α)) (p : String)
    (w : α) (h : hasKeyKV l p = true) :
    lookupKV (replaceKV l p w) p = some w := by
  induction l with
  | nil => simp [hasKeyKV] at h
  | cons kv rest ih =>
    obtain ⟨k, v⟩ := kv
    by_cases hk : k = p
    · simp [replaceKV, lookupKV, hk]
    · simp only [hasKeyKV, if_neg hk] at h
      simp [replaceKV, lookupKV, hk, ih h]

/-- Replacing one key leaves lookups of other keys unchanged. -/
theorem lookupKV_replaceKV_ne {α : Type} (l : List (String × α)) (p q : String)
    (w : α) (h : q ≠ p) : lookupKV (replaceKV l q w) p = lookupKV l p := by
  induction l with
  | nil => rfl
  | cons kv rest ih =>
    obtain ⟨k, v⟩ := kv
    by_cases hk : k = q
    · subst hk
      simp [replaceKV, lookupKV, h, ih]
    · simp only [replaceKV, if_neg hk]
      by_cases hp : k = p
      · simp [lookupKV, hp]
      · simp [lookupKV, hp, ih]

/-- Lookup distributes over append, preferring the left list. -/
theorem lookupKV_append {α : Type} (l m : List (String × α)) (p : String) :
    lookupKV (l ++ m) p =
      match lookupKV l p with
      | some v => some v
      | none => lookupKV m p := by
  induction l with
  | nil => rfl
  | cons kv rest ih =>
    obtain ⟨k, v⟩ := kv
    by_cases hk : k = p
    · simp [lookupKV, hk]
    · simp [lookupKV, hk, ih]

/-- A key that is not present looks up to `none`. -/
theorem lookupKV_eq_none {α : Type} (l : List (String × α)) (p : String)
    (h : hasKeyKV l p = false) : lookupKV l p = none := by
  induction l with
  | nil => rfl
  | cons kv rest ih =>
    obtain ⟨k, v⟩ := kv
    by_cases hk : k = p
    · simp [hasKeyKV, hk] at h
    · simp only [hasKeyKV, if_neg hk] at h
      simp [lookupKV, hk, ih h]

/-- After `SET p TO v` the connection reports `v` for `p`. -/
theorem PGConn.lookup_set_self (c : PGConn) (p v : String) :
    (c.set p v).lookup p = some v := by
  unfold PGConn.set PGConn.lookup setKV
  by_cases h : hasKeyKV c.params p = true
  · rw [if_pos h]
    exact lookupKV_replaceKV_self c.params p v h
  · rw [if_neg h]
    rw [lookupKV_append]
    rw [lookupKV_eq_none c.params p (by simpa using h)]
    simp [lookupKV]

/-- `SET q TO w` does not change the reported value of another key. -/
theorem PGConn.lookup_set_ne (c : PGConn) (p q w : String) (h : q ≠ p) :
    (c.set q w).lookup p = c.lookup p := by
  unfold PGConn.set PGConn.lookup setKV
  by_cases hk : hasKeyKV c.params q = true
  · rw [if_pos hk]
    exact lookupKV_replaceKV_ne c.params p q w h
  · rw [if_neg hk]
    rw [lookupKV_append]
    cases hl : lookupKV c.params p with
    | some v => rfl
    | none => simp [lookupKV, fun hq => h hq]

/-- Parameters outside the applied set keep their reported values. -/
theorem lookup_applyParams_not_mem (ps : List (String × String)) (c : PGConn)
    (p : String) (h : p ∉ ps.map Prod.fst) :
    (applyParams ps c).lookup p = c.lookup p := by
  induction ps generalizing c with
  | nil => rfl
  | cons kv rest ih =>
    obtain ⟨k, v⟩ := kv
    simp only [List.map_cons, List.mem_cons] at h
    push_neg at h
    show (applyParams rest (c.set k v)).lookup p = c.lookup p
    rw [ih (c.set k v) h.2]
    exact PGConn.lookup_set_ne c p k v (fun hk => h.1 hk.symm)

/-- After applying a duplicate-free parameter list, every applied key
reports its applied value. -/
theorem lookup_applyParams_of_lookupKV (ps : List (String × String))
    (c : PGConn) (p : String) (v : String)
    (hnd : (ps.map Prod.fst).Nodup) (hv : lookupKV ps p = some v) :
    (applyParams ps c).lookup p = some v := by
  induction ps generalizing c with
  | nil => simp [lookupKV] at hv
  | cons kv rest ih =>
    obtain ⟨k, w⟩ := kv
    simp only [List.map_cons, List.nodup_cons] at hnd
    by_cases hk : k = p
    · subst hk
      simp only [lookupKV, if_true, eq_self_iff_true, if_pos] at hv
      rw [Option.some.injEq] at hv
      subst hv
      show (applyParams rest (c.set k w)).lookup k = some w
      rw [lookup_applyParams_not_mem rest (c.set k w) k hnd.1]
      exact PGConn.lookup_set_self c k w
    · simp only [lookupKV, if_neg hk] at hv
      exact ih (c.set k w) hnd.2 hv

/-- A connection pass with no rejected command applies every parameter. -/
theorem setConnParams_ok (reject : String → String → Option String)
    (ps : List (String × String)) (c : PGConn)
    (hok : ∀ a b, (a, b) ∈ ps → reject a b = none) :
    setConnParams reject c ps = Except.ok (applyParams ps c) := by
  induction ps generalizing c with
  | nil => rfl
  | cons kv rest ih =>
    obtain ⟨p, v⟩ := kv
    have hp : reject p v = none := hok p v (List.mem_cons_self _ _)
    simp only [setConnParams, hp]
    exact ih (c.set p v) (fun a b hab => hok a b (List.mem_cons_of_mem _ hab))

/-- A connection pass stops at the first rejected command with its cause. -/
theorem setConnParams_fail (reject : String → String → Option String)
    (pre post : List (String × String)) (p0 v0 cause : String) (c : PGConn)
    (hpre : ∀ a b, (a, b) ∈ pre → reject a b = none)
    (hf : reject p0 v0 = some cause) :
    setConnParams reject c (pre ++ (p0, v0) :: post) = Except.error cause := by
  induction pre generalizing c with
  | nil => simp only [List.nil_append, setConnParams, hf]
  | cons kv rest ih =>
    obtain ⟨p, v⟩ := kv
    have hp : reject p v = none := hpre p v (List.mem_cons_self _ _)
    simp only [List.cons_append, setConnParams, hp]
    exact ih (c.set p v) (fun a b hab => hpre a b (List.mem_cons_of_mem _ hab))

/-- With no rejection anywhere, the pool loop updates every connection
and raises nothing; only `activate_deactivate_pglogs` among the class
attributes may change. -/
theorem resetConnectionGo_ok (reject : Nat → String → String → Option String)
    (en : Bool) (ps : List (String × String)) (conns : List PGConn)
    (hok : ∀ j a b, reject j a b = none) :
    ∀ (i : Nat) (cls : CState),
      (resetConnectionGo reject en ps i cls conns).2.1 =
          conns.map (applyParams ps) ∧
        (resetConnectionGo reject en ps i cls conns).2.2 = none ∧
        (resetConnectionGo reject en ps i cls conns).1.profile = cls.profile ∧
        (resetConnectionGo reject en ps i cls conns).1.enabled = cls.enabled ∧
        (resetConnectionGo reject en ps i cls conns).1.pglogs_enabled =
          cls.pglogs_enabled ∧
        (resetConnectionGo reject en ps i cls conns).1.psql_params_original =
          cls.psql_params_original := by
  induction conns with
  | nil => intro i cls; exact ⟨rfl, rfl, rfl, rfl, rfl, rfl⟩
  | cons c rest ih =>
    intro i cls
    have hset : setConnParams (reject i) c ps = Except.ok (applyParams ps c) :=
      setConnParams_ok (reject i) ps c (fun a b _ => hok i a b)
    simp only [resetConnectionGo, hset]
    obtain ⟨h1, h2, h3, h4, h5, h6⟩ :=
      ih (i + 1) { cls with activate_deactivate_pglogs := some en }
    exact ⟨by simp [h1], h2, h3, h4, h5, h6⟩

/-- When the first rejection happens on connection number `before.length`
(counting from `i`), the loop stops there: earlier connections keep their
fully applied new values, the failing connection is rolled back to its
entry state, later connections are never touched, and the raised
`UserError` carries the rejection cause. -/
theorem resetConnectionGo_fail (reject : Nat → String → String → Option String)
    (en : Bool) (pre post : List (String × String)) (p0 v0 cause : String)
    (c : PGConn) (after : List PGConn) :
    ∀ (before : List PGConn) (i : Nat) (cls : CState),
      (∀ k, k < before.length → ∀ a b,
        (a, b) ∈ pre ++ (p0, v0) :: post → reject (i + k) a b = none) →
      (∀ a b, (a, b) ∈ pre → reject (i + before.length) a b = none) →
      reject (i + before.length) p0 v0 = some cause →
      (resetConnectionGo reject en (pre ++ (p0, v0) :: post) i cls
            (before ++ c :: after)).2.1 =
          before.map (applyParams (pre ++ (p0, v0) :: post)) ++ c :: after ∧
        (resetConnectionGo reject en (pre ++ (p0, v0) :: post) i cls
            (before ++ c :: after)).2.2 = some (pgUserError cause) := by
  intro before
  induction before with
  | nil =>
    intro i cls h1 h2 h3
    simp only [List.length_nil, Nat.add_zero] at h2 h3
    have hset : setConnParams (reject i) c (pre ++ (p0, v0) :: post) =
        Except.error cause :=
      setConnParams_fail (reject i) pre post p0 v0 cause c h2 h3
    simp only [List.nil_append, resetConnectionGo, hset]
    simp
  | cons b rest ih =>
    intro i cls h1 h2 h3
    have hb : setConnParams (reject i) b (pre ++ (p0, v0) :: post) =
        Except.ok (applyParams (pre ++ (p0, v0) :: post) b) :=
      setConnParams_ok (reject i) _ b
        (fun a v hab => by
          have := h1 0 (by simp) a v hab
          rwa [Nat.add_zero] at this)
    simp only [List.cons_append, resetConnectionGo, hb]
    have h1' : ∀ k, k < rest.length → ∀ a v,
        (a, v) ∈ pre ++ (p0, v0) :: post → reject (i + 1 + k) a v = none := by
      intro k hk a v hav
      have := h1 (k + 1) (by simpa using Nat.succ_lt_succ hk) a v hav
      rwa [show i + (k + 1) = i + 1 + k by omega] at this
    have h2' : ∀ a v, (a, v) ∈ pre → reject (i + 1 + rest.length) a v = none := by
      intro a v hav
      have := h2 a v hav
      rwa [show i + (b :: rest).length = i + 1 + rest.length by
        simp [List.length_cons]; omega] at this
    have h3' : reject (i + 1 + rest.length) p0 v0 = some cause := by
      have := h3
      rwa [show i + (b :: rest).length = i + 1 + rest.length by
        simp [List.length_cons]; omega] at this
    obtain ⟨hA, hB⟩ :=
      ih (i + 1) { cls with activate_deactivate_pglogs := some en } h1' h2' h3'
    exact ⟨by simp [hA], hB⟩

/-! ### C5 — enable/disable round-trip of the logging parameters -/

/-- C5: with no external configuration signal, no rejected command, a
duplicate-free cache whose keys cover the target parameter set, and every
pooled connection agreeing with the cached originals (the values observed
and cached at setup), running `_reset_connection(True)` and then
`_reset_connection(False)` raises nothing and restores every target
parameter on every connection to its pre-enable observed value. -/
theorem pgoptions_apply_roundtrip (ext : External) (cls : CState)
    (conns : List PGConn)
    (hrej : ∀ i a b, ext.reject i a b = none)
    (hnd : (cls.psql_params_original.map Prod.fst).Nodup)
    (hkeys : ∀ p, p ∈ PGOPTIONS.map Prod.fst →
      (lookupKV cls.psql_params_original p).isSome = true)
    (hcache : ∀ c, c ∈ conns → ∀ p, p ∈ PGOPTIONS.map Prod.fst →
      PGConn.lookup c p = lookupKV cls.psql_params_original p) :
    (ProfilerProfile.reset_connection ext true cls conns).2.2 = none ∧
      (ProfilerProfile.reset_connection ext false
          (ProfilerProfile.reset_connection ext true cls conns).1
          (ProfilerProfile.reset_connection ext true cls conns).2.1).2.2 =
        none ∧
      ∀ i p, p ∈ PGOPTIONS.map Prod.fst →
        ((ProfilerProfile.reset_connection ext false
              (ProfilerProfile.reset_connection ext true cls conns).1
              (ProfilerProfile.reset_connection ext true cls conns).2.1).2.1.get?
            i).map (fun c => PGConn.lookup c p) =
          (conns.get? i).map (fun c => PGConn.lookup c p) := by
  obtain ⟨e1conns, e1err, _, _, _, e1psql⟩ :=
    resetConnectionGo_ok ext.reject true PGOPTIONS conns hrej 0 cls
  unfold ProfilerProfile.reset_connection
  simp only [if_pos, if_neg, Bool.false_eq_true, if_true, if_false]
  rw [e1psql] at *
  obtain ⟨e2conns, e2err, _⟩ :=
    resetConnectionGo_ok ext.reject false cls.psql_params_original
      (resetConnectionGo ext.reject true PGOPTIONS 0 cls conns).2.1 hrej 0
      (resetConnectionGo ext.reject true PGOPTIONS 0 cls conns).1
  refine ⟨e1err, e2err, ?_⟩
  intro i p hp
  rw [e2conns, e1conns]
  rw [List.get?_map, List.get?_map]
  cases hc : conns.get? i with
  | none => rfl
  | some c =>
    have hmem : c ∈ conns := List.get?_mem hc
    obtain ⟨v, hv⟩ := Option.isSome_iff_exists.mp (hkeys p hp)
    simp only [Option.map_some']
    rw [lookup_applyParams_of_lookupKV cls.psql_params_original
      (applyParams PGOPTIONS c) p v hnd hv]
    rw [hcache c hmem p hp, hv]

/-- Witness for C5 on two connections carrying the cached originals. -/
theorem pgoptions_apply_roundtrip_witness :
    (ProfilerProfile.reset_connection extBase true clsC5 connsC5).2.2 = none ∧
      (ProfilerProfile.reset_connection extBase false
          (ProfilerProfile.reset_connection extBase true clsC5 connsC5).1
          (ProfilerProfile.reset_connection extBase true clsC5 connsC5).2.1).2.2 =
        none ∧
      ((ProfilerProfile.reset_connection extBase false
            (ProfilerProfile.reset_connection extBase true clsC5 connsC5).1
            (ProfilerProfile.reset_connection extBase true clsC5
              connsC5).2.1).2.1.get? 0).map
          (fun c => PGConn.lookup c "log_min_duration_statement") =
        (connsC5.get? 0).map
          (fun c => PGConn.lookup c "log_min_duration_statement") := by
  obtain ⟨h1, h2, h3⟩ := pgoptions_apply_roundtrip extBase clsC5 connsC5
    (fun _ _ _ => rfl) (by decide) (by decide) (by decide)
  exact ⟨h1, h2, h3 0 "log_min_duration_statement" (by decide)⟩

/-! ### C6 — fail-fast error handling in `_reset_connection` -/

/-- C6: when the first rejected `SET` happens on connection number
`before.length` (all earlier connections accept every parameter, and on
the failing connection the parameters before the offending one are
accepted), `_reset_connection` raises the `UserError` carrying the
rejection cause, the failing connection is rolled back to its entry
state, connections updated earlier in the pass keep all their new values,
and the remaining connections are never touched. -/
theorem reset_connection_failfast (ext : External) (en : Bool) (cls : CState)
    (before : List PGConn) (c : PGConn) (after : List PGConn)
    (pre post : List (String × String)) (p0 v0 cause : String)
    (hps : (if en then PGOPTIONS else cls.psql_params_original) =
      pre ++ (p0, v0) :: post)
    (hbefore : ∀ k, k < before.length → ∀ a b,
      (a, b) ∈ pre ++ (p0, v0) :: post → ext.reject k a b = none)
    (hpre : ∀ a b, (a, b) ∈ pre → ext.reject before.length a b = none)
    (hfail : ext.reject before.length p0 v0 = some cause) :
    (ProfilerProfile.reset_connection ext en cls (before ++ c :: after)).2.2 =
        some (pgUserError cause) ∧
      (ProfilerProfile.reset_connection ext en cls (before ++ c :: after)).2.1 =
        before.map (applyParams (pre ++ (p0, v0) :: post)) ++ c :: after := by
  unfold ProfilerProfile.reset_connection
  rw [hps]
  have h1' : ∀ k, k < before.length → ∀ a b,
      (a, b) ∈ pre ++ (p0, v0) :: post → ext.reject (0 + k) a b = none := by
    intro k hk a b hab
    simpa using hbefore k hk a b hab
  have h2' : ∀ a b, (a, b) ∈ pre → ext.reject (0 + before.length) a b = none := by
    intro a b hab
    simpa using hpre a b hab
  have h3' : ext.reject (0 + before.length) p0 v0 = some cause := by
    simpa using hfail
  obtain ⟨hA, hB⟩ := resetConnectionGo_fail ext.reject en pre post p0 v0 cause
    c after before 0 cls h1' h2' h3'
  exact ⟨hB, hA⟩

/-- Witness for C6: three connections, the `SET` of `client_min_messages`
rejected on the second; the first keeps its new values, the second and
third keep their originals, and the raised message carries the cause. -/
theorem reset_connection_failfast_witness :
    (ProfilerProfile.reset_connection extC6 true clsC5
          [connW, connW, connW]).2.2 =
        some (pgUserError "insufficient privilege") ∧
      (ProfilerProfile.reset_connection extC6 true clsC5
          [connW, connW, connW]).2.1 =
        [connW].map
            (applyParams (preC6 ++ ("client_min_messages", "notice") :: postC6)) ++
          connW :: [connW] :=
  reset_connection_failfast extC6 true clsC5 [connW] connW [connW] preC6 postC6
    "client_min_messages" "notice" "insufficient privilege" (by decide)
    (by
      intro k hk a b _
      simp only [List.length_singleton] at hk
      have hk0 : k = 0 := by omega
      subst hk0
      rfl)
    (by
      intro a b hab
      simp only [preC6, List.mem_singleton, Prod.mk.injEq] at hab
      obtain ⟨ha, _⟩ := hab
      subst ha
      rfl)
    rfl

/-! ### Success-path characterizations of the postgres reconfiguration -/

/-- With no rejected command, `_reset_connection` raises nothing and
leaves the sampler and the flags other than
`activate_deactivate_pglogs` untouched. -/
theorem reset_connection_ok (ext : External) (en : Bool) (cls : CState)
    (conns : List PGConn) (hrej : ∀ i a b, ext.reject i a b = none) :
    (ProfilerProfile.reset_connection ext en cls conns).2.2 = none ∧
      (ProfilerProfile.reset_connection ext en cls conns).1.profile =
        cls.profile ∧
      (ProfilerProfile.reset_connection ext en cls conns).1.enabled =
        cls.enabled := by
  unfold ProfilerProfile.reset_connection
  obtain ⟨_, h2, h3, h4, _, _⟩ :=
    resetConnectionGo_ok ext.reject en
      (if en = true then PGOPTIONS else cls.psql_params_original) conns hrej 0 cls
  exact ⟨h2, h3, h4⟩

/-- With no rejected command, `_reset_postgresql` succeeds and leaves the
session rows, the sampler, the process-wide flag and the session marker
unchanged. -/
theorem reset_postgresql_ok (ext : External) (self : ProfilerProfile)
    (env : Env) (hrej : ∀ i a b, ext.reject i a b = none) :
    ∃ env', ProfilerProfile.reset_postgresql ext self env = Except.ok env' ∧
      env'.records = env.records ∧
      env'.cls.profile = env.cls.profile ∧
      env'.cls.enabled = env.cls.enabled ∧
      env'.oca_profiler = env.oca_profiler := by
  by_cases h1 : self.enable_postgresql = false
  · refine ⟨env, ?_, rfl, rfl, rfl, rfl⟩
    unfold ProfilerProfile.reset_postgresql
    rw [if_pos h1]
  · by_cases h2 : truthy env.cls.pglogs_enabled = true
    · refine ⟨env, ?_, rfl, rfl, rfl, rfl⟩
      unfold ProfilerProfile.reset_postgresql
      rw [if_neg h1, if_pos h2]
    · obtain ⟨he, hprof, hen⟩ := reset_connection_ok ext
        (decide (self.state = ProfileState.enabled)) env.cls env.connections hrej
      rcases hR : ProfilerProfile.reset_connection ext
          (decide (self.state = ProfileState.enabled)) env.cls env.connections
        with ⟨cls2, conns2, err⟩
      rw [hR] at he hprof hen
      simp only at he hprof hen
      subst he
      refine ⟨{ env with
          pgoptions_env :=
            if self.state = ProfileState.enabled then PGOPTIONS_ENV else "",
          cls := cls2, connections := conns2 }, ?_, rfl, hprof, hen, rfl⟩
      unfold ProfilerProfile.reset_postgresql
      rw [if_neg h1, if_neg h2, hR]

/-- The best-effort `pgbadger` step never touches the session rows. -/
theorem dump_postgresql_logs_records (ext : External) (self : ProfilerProfile)
    (env : Env) :
    (ProfilerProfile.dump_postgresql_logs ext self env).records = env.records := by
  unfold ProfilerProfile.dump_postgresql_logs
  split
  · rfl
  · split <;> rfl

/-- `dump_stats` never touches the session rows. -/
theorem dump_stats_records (ext : External) (self : ProfilerProfile)
    (env : Env) :
    (ProfilerProfile.dump_stats ext self env).2.records = env.records := by
  simp only [ProfilerProfile.dump_stats]
  split
  · rw [dump_postgresql_logs_records]
    split <;> rfl
  · rfl

/-- `dump_stats` never touches the class attributes (it only reads the
shared sampler and writes attachments and python-line rows). -/
theorem dump_stats_cls (ext : External) (self : ProfilerProfile) (env : Env) :
    (ProfilerProfile.dump_stats ext self env).2.cls = env.cls := by
  simp only [ProfilerProfile.dump_stats]
  split
  · rw [show ∀ e, (ProfilerProfile.dump_postgresql_logs ext self e).cls = e.cls
      from ?_]
    · split <;> rfl
    · intro e
      unfold ProfilerProfile.dump_postgresql_logs
      split
      · rfl
      · split <;> rfl
  · rfl

/-- Unfolding of `disable()` for a `full`-mode session. -/
theorem disable_eq_full (ext : External) (env : Env) (p : ProfilerProfile)
    (hpy : p.enable_python = true) (hm : p.python_method = PythonMethod.full) :
    ProfilerProfile.disable ext p env =
      ProfilerProfile.reset_postgresql ext
        { p with state := ProfileState.disabled, date_finished := some ext.now }
        (ProfilerProfile.clear ext
          { p with state := ProfileState.disabled,
                   date_finished := some ext.now }
          (ProfilerProfile.dump_stats ext
            { p with state := ProfileState.disabled,
                     date_finished := some ext.now }
            (updateRecord { env with cls := { env.cls with enabled := some false } }
              { p with state := ProfileState.disabled,
                       date_finished := some ext.now })).2
          false) := by
  simp only [ProfilerProfile.disable]
  rw [if_pos ⟨hpy, hm⟩, if_pos ⟨hpy, hm⟩]

/-- Unfolding of `disable()` for a `request`-mode session. -/
theorem disable_eq_request (ext : External) (env : Env) (p : ProfilerProfile)
    (hpy : p.enable_python = true)
    (hm : p.python_method = PythonMethod.request) :
    ProfilerProfile.disable ext p env =
      ProfilerProfile.reset_postgresql ext
        { p with state := ProfileState.disabled, date_finished := some ext.now }
        (ProfilerProfile.clear ext
          { p with state := ProfileState.disabled,
                   date_finished := some ext.now }
          (updateRecord { env with oca_profiler := none }
            { p with state := ProfileState.disabled,
                     date_finished := some ext.now })
          false) := by
  have hnf : ¬(p.enable_python = true ∧ p.python_method = PythonMethod.full) := by
    rintro ⟨-, hc⟩
    rw [hm] at hc
    cases hc
  simp only [ProfilerProfile.disable]
  rw [if_neg hnf, if_neg hnf, if_pos ⟨hpy, hm⟩]

/-- Unfolding of `disable()` when Python profiling is off. -/
theorem disable_eq_other (ext : External) (env : Env) (p : ProfilerProfile)
    (hpy : p.enable_python = false) :
    ProfilerProfile.disable ext p env =
      ProfilerProfile.reset_postgresql ext
        { p with state := ProfileState.disabled, date_finished := some ext.now }
        (ProfilerProfile.clear ext
          { p with state := ProfileState.disabled,
                   date_finished := some ext.now }
          (updateRecord env
            { p with state := ProfileState.disabled,
                     date_finished := some ext.now })
          false) := by
  have hnf : ¬(p.enable_python = true ∧ p.python_method = PythonMethod.full) := by
    rintro ⟨hc, -⟩
    rw [hpy] at hc
    cases hc
  have hnr : ¬(p.enable_python = true ∧
      p.python_method = PythonMethod.request) := by
    rintro ⟨hc, -⟩
    rw [hpy] at hc
    cases hc
  simp only [ProfilerProfile.disable]
  rw [if_neg hnf, if_neg hnf, if_neg hnr]

/-- Unfolding of `enable()` for a `request`-mode session. -/
theorem enable_eq_request (ext : External) (env : Env) (p : ProfilerProfile)
    (hpy : p.enable_python = true)
    (hm : p.python_method = PythonMethod.request) :
    ProfilerProfile.enable ext p env =
      Except.ok (updateRecord { env with oca_profiler := some p.id }
        { p with date_started := some ext.now, state := ProfileState.enabled,
                 session := some ext.sid }) := by
  have hnw : ¬(ext.workers ≠ 0 ∧ p.enable_python = true ∧
      p.python_method = PythonMethod.full) := by
    rintro ⟨-, -, hc⟩
    rw [hm] at hc
    cases hc
  have hnf : ¬(p.enable_python = true ∧ p.python_method = PythonMethod.full) := by
    rintro ⟨-, hc⟩
    rw [hm] at hc
    cases hc
  unfold ProfilerProfile.enable
  rw [if_neg hnw, if_neg hnf, if_pos ⟨hpy, hm⟩]

/-! ### C10 — `disable()` has no state precondition -/

/-- C10: `disable()` checks nothing about the session's current state:
for every session row (already disabled, never enabled, any mode) and
every environment, provided the postgres reconfiguration rejects nothing,
the call succeeds, writes the row back with state `disabled` and the end
timestamp overwritten by the current server time (the start timestamp
untouched), and — in every mode, not only `full` — wipes the process-wide
shared sampler's accumulated buffer through `clear(reset_date=False)`. -/
theorem disable_no_precondition (ext : External) (env : Env)
    (p : ProfilerProfile) (hrej : ∀ i a b, ext.reject i a b = none) :
    ∃ env', ProfilerProfile.disable ext p env = Except.ok env' ∧
      env'.records = env.records.map (fun q =>
        if q.id = p.id then
          { p with state := ProfileState.disabled,
                   date_finished := some ext.now }
        else q) ∧
      env'.cls.profile.buffer = [] := by
  by_cases hpy : p.enable_python = true
  · by_cases hm : p.python_method = PythonMethod.full
    · rw [disable_eq_full ext env p hpy hm]
      obtain ⟨env', hok, hrec, hprof, _, _⟩ := reset_postgresql_ok ext
        { p with state := ProfileState.disabled, date_finished := some ext.now }
        (ProfilerProfile.clear ext
          { p with state := ProfileState.disabled,
                   date_finished := some ext.now }
          (ProfilerProfile.dump_stats ext
            { p with state := ProfileState.disabled,
                     date_finished := some ext.now }
            (updateRecord { env with cls := { env.cls with enabled := some false } }
              { p with state := ProfileState.disabled,
                       date_finished := some ext.now })).2
          false) hrej
      refine ⟨env', hok, ?_, ?_⟩
      · rw [hrec]
        show (ProfilerProfile.dump_stats ext _ _).2.records = _
        rw [dump_stats_records]
        rfl
      · rw [hprof]
        rfl
    · have hm' : p.python_method = PythonMethod.request := by
        cases h : p.python_method
        · exact absurd h hm
        · rfl
      rw [disable_eq_request ext env p hpy hm']
      obtain ⟨env', hok, hrec, hprof, _, _⟩ := reset_postgresql_ok ext
        { p with state := ProfileState.disabled, date_finished := some ext.now }
        (ProfilerProfile.clear ext
          { p with state := ProfileState.disabled,
                   date_finished := some ext.now }
          (updateRecord { env with oca_profiler := none }
            { p with state := ProfileState.disabled,
                     date_finished := some ext.now })
          false) hrej
      refine ⟨env', hok, ?_, ?_⟩
      · rw [hrec]
        rfl
      · rw [hprof]
        rfl
  · have hpy' : p.enable_python = false := by
      cases h : p.enable_python
      · rfl
      · exact absurd h hpy
    rw [disable_eq_other ext env p hpy']
    obtain ⟨env', hok, hrec, hprof, _, _⟩ := reset_postgresql_ok ext
      { p with state := ProfileState.disabled, date_finished := some ext.now }
      (ProfilerProfile.clear ext
        { p with state := ProfileState.disabled,
                 date_finished := some ext.now }
        (updateRecord env
          { p with state := ProfileState.disabled,
                   date_finished := some ext.now })
        false) hrej
    refine ⟨env', hok, ?_, ?_⟩
    · rw [hrec]
      rfl
    · rw [hprof]
      rfl

/-- Witness for C10: disabling the baseline session, which was never
enabled, succeeds and leaves the disabled row and an empty buffer. -/
theorem disable_no_precondition_witness :
    (okEnv (ProfilerProfile.disable extBase profBase envBase)).map Env.records =
        some (envBase.records.map (fun q =>
          if q.id = profBase.id then
            { profBase with state := ProfileState.disabled,
                            date_finished := some extBase.now }
          else q)) ∧
      (okEnv (ProfilerProfile.disable extBase profBase envBase)).map
          (fun e => e.cls.profile.buffer) = some [] := by
  obtain ⟨env', hok, hrec, hbuf⟩ :=
    disable_no_precondition extBase envBase profBase (fun _ _ _ => rfl)
  rw [hok]
  exact ⟨by simp [okEnv, hrec], by simp [okEnv, hbuf]⟩

/-! ### C9 — per-request sessions and the shared full-mode session -/

/-- Counterexample to C9: the shared sampler's accumulated buffer is NOT
left unchanged by a per-request enable/disable cycle.  `disable()` calls
`clear(reset_date=False)` in every mode, so disabling the per-request
session wipes the buffer (here from `[1, 2]` to `[]`) out from under the
concurrently enabled `full`-mode session. -/
theorem request_cycle_clears_shared_buffer_cex :
    envC9.cls.profile.buffer = [1, 2] ∧
      cycleC9.map (fun e => e.cls.profile.buffer) = some [] := by
  constructor
  · rfl
  · decide

/-- C9 as amended: enabling a per-request session leaves the process-wide
flag (indeed the whole class state) unchanged and the full-mode session's
row untouched; the enable/disable cycle also leaves the flag and the
other row unchanged — but `disable()` ends the cycle with the shared
sampler's accumulated buffer wiped (`clear(reset_date=False)` runs in
every mode), so a concurrently enabled full-mode session loses its
accumulated samples. -/
theorem request_mode_isolation_amended (ext : External) (env : Env)
    (p q : ProfilerProfile) (hpy : p.enable_python = true)
    (hm : p.python_method = PythonMethod.request)
    (hpg : p.enable_postgresql = false)
    (hq : q ∈ env.records) (hne : q.id ≠ p.id) :
    ∃ env1 env2,
      ProfilerProfile.enable ext p env = Except.ok env1 ∧
        env1.cls = env.cls ∧
        q ∈ env1.records ∧
        ProfilerProfile.disable ext
          { p with date_started := some ext.now, state := ProfileState.enabled,
                   session := some ext.sid } env1 = Except.ok env2 ∧
        env2.cls.enabled = env.cls.enabled ∧
        q ∈ env2.records ∧
        env2.cls.profile.buffer = [] := by
  refine ⟨_,
    ProfilerProfile.clear ext
      { { p with date_started := some ext.now, state := ProfileState.enabled,
                 session := some ext.sid } with
        state := ProfileState.disabled, date_finished := some ext.now }
      (updateRecord
        { (updateRecord { env with oca_profiler := some p.id }
            { p with date_started := some ext.now,
                     state := ProfileState.enabled,
                     session := some ext.sid }) with oca_profiler := none }
        { { p with date_started := some ext.now, state := ProfileState.enabled,
                   session := some ext.sid } with
          state := ProfileState.disabled, date_finished := some ext.now })
      false,
    enable_eq_request ext env p hpy hm, rfl, ?_, ?_, ?_, ?_, ?_⟩
  · simp only [updateRecord, List.mem_map]
    exact ⟨q, hq, by rw [if_neg hne]⟩
  · rw [disable_eq_request ext _
      { p with date_started := some ext.now, state := ProfileState.enabled,
               session := some ext.sid } hpy hm]
    unfold ProfilerProfile.reset_postgresql
    rw [if_pos hpg]
  · rfl
  · simp only [ProfilerProfile.clear, Bool.false_eq_true, if_false,
      updateRecord, List.mem_map]
    exact ⟨q, ⟨q, hq, by rw [if_neg hne]⟩, by rw [if_neg hne]⟩
  · rfl

/-- Witness for the amended C9 on the concrete two-session environment. -/
theorem request_mode_isolation_amended_witness :
    ∃ env1 env2,
      ProfilerProfile.enable extBase pC9 envC9 = Except.ok env1 ∧
        env1.cls = envC9.cls ∧
        qC9 ∈ env1.records ∧
        ProfilerProfile.disable extBase
          { pC9 with date_started := some extBase.now,
                     state := ProfileState.enabled,
                     session := some extBase.sid } env1 = Except.ok env2 ∧
        env2.cls.enabled = envC9.cls.enabled ∧
        qC9 ∈ env2.records ∧
        env2.cls.profile.buffer = [] :=
  request_mode_isolation_amended extBase envC9 pC9 qC9 rfl rfl rfl
    (by decide) (by decide)

/-! ### C2 — the empty-buffer sentinel in `dump_stats` -/

/-- C2: `dump_stats` materializes a blob exactly when the read-back bytes
are non-empty and differ from the `CPROFILE_EMPTY_CHARS` sentinel.  Empty
or sentinel bytes: nothing is stored, nothing is returned, the whole
environment is unchanged.  Otherwise exactly one attachment holding the
(base64-encoded) bytes is created on the session (the side condition
keeps the best-effort `pgbadger` attachment, whose payload is HTML, from
coinciding with the dump payload). -/
theorem dump_stats_blob_iff_nonempty (ext : External) (p : ProfilerProfile)
    (env : Env) :
    ((ext.serialize env.cls.profile.buffer = [] ∨
        ext.serialize env.cls.profile.buffer = CPROFILE_EMPTY_CHARS) →
      ProfilerProfile.dump_stats ext p env = (none, env)) ∧
      (ext.serialize env.cls.profile.buffer ≠ [] →
        ext.serialize env.cls.profile.buffer ≠ CPROFILE_EMPTY_CHARS →
        (∀ bs, ext.pgbadger = some bs →
          base64Encode bs ≠ base64Encode (ext.serialize env.cls.profile.buffer)) →
        ∃ att, (ProfilerProfile.dump_stats ext p env).1 = some att ∧
          att.datas = base64Encode (ext.serialize env.cls.profile.buffer) ∧
          att.res_id = p.id ∧
          att.description = "cProfile dump stats" ∧
          ((ProfilerProfile.dump_stats ext p env).2.attachments.filter
              (fun a =>
                a.datas == base64Encode (ext.serialize env.cls.profile.buffer))).length =
            (env.attachments.filter
              (fun a =>
                a.datas == base64Encode (ext.serialize env.cls.profile.buffer))).length +
              1) := by
  constructor
  · intro h
    simp only [ProfilerProfile.dump_stats]
    rw [if_neg (fun hc => h.elim hc.1 hc.2)]
  · intro h1 h2 hpg
    simp only [ProfilerProfile.dump_stats]
    rw [if_pos ⟨h1, h2⟩]
    refine ⟨_, rfl, rfl, rfl, rfl, ?_⟩
    have hatt3 : ∀ (e2 : Env),
        (ProfilerProfile.dump_postgresql_logs ext p e2).attachments.filter
            (fun a =>
              a.datas == base64Encode (ext.serialize env.cls.profile.buffer)) =
          e2.attachments.filter
            (fun a =>
              a.datas == base64Encode (ext.serialize env.cls.profile.buffer)) := by
      intro e2
      unfold ProfilerProfile.dump_postgresql_logs
      cases hb : ext.pgbadger with
      | none => rfl
      | some bs =>
        by_cases hbs : bs = []
        · simp [hbs]
        · have hne : (base64Encode bs ==
              base64Encode (ext.serialize env.cls.profile.buffer)) = false := by
            exact beq_eq_false_iff_ne.mpr (hpg bs hb)
          simp [hbs, List.filter_append, hne]
    rw [hatt3]
    have hmid : ∀ (envA : Env) (attA : Attachment)
        (pyl : List ProfilerProfilePythonLine),
        (if p.use_py_index = true then
            { envA with attachments := envA.attachments ++ [attA],
                        py_lines := pyl }
          else
            { envA with attachments := envA.attachments ++ [attA] }).attachments =
          envA.attachments ++ [attA] := by
      intro envA attA pyl
      split <;> rfl
    rw [hmid, List.filter_append, List.length_append]
    simp [List.filter]

/-- Witness for C2 at both branches: an empty buffer dumps nothing and
changes nothing; the bytes `[1]` dump exactly one attachment carrying
them. -/
theorem dump_stats_blob_iff_nonempty_witness :
    ProfilerProfile.dump_stats extBase profBase envBase = (none, envBase) ∧
      (∃ att, (ProfilerProfile.dump_stats extC2 profBase envBase).1 = some att ∧
        att.datas = base64Encode (extC2.serialize envBase.cls.profile.buffer) ∧
        att.res_id = profBase.id ∧
        att.description = "cProfile dump stats" ∧
        ((ProfilerProfile.dump_stats extC2 profBase envBase).2.attachments.filter
            (fun a =>
              a.datas ==
                base64Encode (extC2.serialize envBase.cls.profile.buffer))).length =
          (envBase.attachments.filter
            (fun a =>
              a.datas ==
                base64Encode (extC2.serialize envBase.cls.profile.buffer))).length +
            1) :=
  ⟨(dump_stats_blob_iff_nonempty extBase profBase envBase).1 (Or.inl rfl),
    (dump_stats_blob_iff_nonempty extC2 profBase envBase).2 (by decide)
      (by decide) (fun bs h => by cases h)⟩

/-! ### C8 — rebuilding the python-line index from the report -/

/-- Rows kept because they belong to other sessions never survive a
filter for this session's id. -/
theorem filter_ne_then_eq_nil (pid : Nat)
    (ls : List ProfilerProfilePythonLine) :
    ((ls.filter (fun l => l.profile_id ≠ pid)).filter
        (fun l => l.profile_id = pid)) = [] := by
  induction ls with
  | nil => rfl
  | cons l rest ih =>
    by_cases h : l.profile_id = pid
    · simp [List.filter, h, ih]
    · simp [List.filter, h, ih]

/-- Every row built from a parsed report line carries this session's id. -/
theorem filter_eq_on_parsed (pid : Nat) (ls : List String) :
    ((ls.filterMap (fun raw => (parseStatLine raw).map (mkPyLine pid))).filter
        (fun l => l.profile_id = pid)) =
      ls.filterMap (fun raw => (parseStatLine raw).map (mkPyLine pid)) := by
  induction ls with
  | nil => rfl
  | cons raw rest ih =>
    cases h : parseStatLine raw with
    | none => simp [List.filterMap_cons, h, ih]
    | some d => simp [List.filterMap_cons, h, List.filter, mkPyLine, ih]

/-- One created row per well-formed report line. -/
theorem length_parsed_eq_wellformed (pid : Nat) (ls : List String) :
    (ls.filterMap (fun raw => (parseStatLine raw).map (mkPyLine pid))).length =
      (ls.filter (fun raw => (parseStatLine raw).isSome)).length := by
  induction ls with
  | nil => rfl
  | cons raw rest ih =>
    cases h : parseStatLine raw with
    | none => simp [List.filterMap_cons, List.filter, h, ih]
    | some d => simp [List.filterMap_cons, List.filter, h, ih]

/-- C8: a `full`-mode dump with indexing requested replaces all prior
python-line rows of the session by exactly one row per report line
matching `LINE_STATS_RE`: afterwards the table is the other sessions'
rows followed by the freshly parsed rows, the number of rows of this
session equals the number of well-formed report lines, and a malformed
line such as the header `"Ordered by: cumulative time"` is skipped
without error and produces no row. -/
theorem dump_stats_index_replaces_lines (ext : External) (p : ProfilerProfile)
    (env : Env) (hidx : p.use_py_index = true)
    (h1 : ext.serialize env.cls.profile.buffer ≠ [])
    (h2 : ext.serialize env.cls.profile.buffer ≠ CPROFILE_EMPTY_CHARS) :
    ((ProfilerProfile.dump_stats ext p env).2.py_lines =
        env.py_lines.filter (fun l => l.profile_id ≠ p.id) ++
          (splitlines (ext.render env.cls.profile.buffer)).filterMap
            (fun raw => (parseStatLine raw).map (mkPyLine p.id))) ∧
      (((ProfilerProfile.dump_stats ext p env).2.py_lines.filter
            (fun l => l.profile_id = p.id)).length =
        ((splitlines (ext.render env.cls.profile.buffer)).filter
            (fun raw => (parseStatLine raw).isSome)).length) ∧
      parseStatLine "Ordered by: cumulative time" = none := by
  have hpy3 : ∀ (e3 : Env),
      (ProfilerProfile.dump_postgresql_logs ext p e3).py_lines = e3.py_lines := by
    intro e3
    unfold ProfilerProfile.dump_postgresql_logs
    split
    · rfl
    · split <;> rfl
  have hA : (ProfilerProfile.dump_stats ext p env).2.py_lines =
      env.py_lines.filter (fun l => l.profile_id ≠ p.id) ++
        (splitlines (ext.render env.cls.profile.buffer)).filterMap
          (fun raw => (parseStatLine raw).map (mkPyLine p.id)) := by
    simp only [ProfilerProfile.dump_stats]
    rw [if_pos ⟨h1, h2⟩]
    rw [hpy3]
    rw [if_pos hidx]
    rfl
  refine ⟨hA, ?_, by decide⟩
  rw [hA, List.filter_append, List.length_append, filter_ne_then_eq_nil,
    filter_eq_on_parsed, length_parsed_eq_wellformed]
  simp

/-- Witness for C8 on a two-line report: the header produces no row, the
well-formed line produces one. -/
theorem dump_stats_index_replaces_lines_witness :
    ((ProfilerProfile.dump_stats extC8 pC8 envBase).2.py_lines =
        envBase.py_lines.filter (fun l => l.profile_id ≠ pC8.id) ++
          (splitlines (extC8.render envBase.cls.profile.buffer)).filterMap
            (fun raw => (parseStatLine raw).map (mkPyLine pC8.id))) ∧
      (((ProfilerProfile.dump_stats extC8 pC8 envBase).2.py_lines.filter
            (fun l => l.profile_id = pC8.id)).length =
        ((splitlines (extC8.render envBase.cls.profile.buffer)).filter
            (fun raw => (parseStatLine raw).isSome)).length) ∧
      parseStatLine "Ordered by: cumulative time" = none :=
  dump_stats_index_replaces_lines extC8 pC8 envBase rfl (by decide) (by decide)
